import Mathlib

/-!
# Shallow embedding of `GliderNetCDF/netcdf.py` (class `ncHereon`)

The Python class `ncHereon` wraps a `netCDF4.Dataset`.  We model the
underlying NetCDF file as association lists of global attributes, named
dimensions and named variables, and translate each method of the class
into a Lean function on this state.  Numeric array payloads are modelled
as lists of rationals (the spec treats caller-supplied values as opaque
finite sequences of floating-point numbers).

Error behaviour of the storage layer is modelled explicitly: creating a
dimension or variable whose name is already in use fails, and a failing
call returns the state as mutated by the statements executed before the
raise, mirroring Python exception semantics.  Every operation therefore
returns `Option String × State`: the first component is `some msg` when
the Python code would raise.
-/

set_option autoImplicit false

/-- Association-list lookup keyed by strings, modelling a Python `dict`
lookup (first matching key wins; our guarded code never duplicates keys). -/
def alookup {β : Type} (k : String) : List (String × β) → Option β
  | [] => none
  | (k', b) :: es => if k = k' then some b else alookup k es

/-- Attribute values storable in a NetCDF file (strings, 32-bit integers,
floating-point numbers). -/
inductive AttrValue where
  | str (s : String)
  | int32 (n : Int)
  | float (q : Rat)
deriving Repr, DecidableEq

/-- Python-level metadata values that may be passed as `**meta_data`. -/
inductive PyVal where
  | pybool (b : Bool)
  | pyint (n : Int)
  | pyfloat (q : Rat)
  | pystr (s : String)
deriving Repr, DecidableEq

/-- Wrap an integer into the signed 32-bit range, modelling `np.int32`. -/
def toInt32 (n : Int) : Int := (n + 2 ^ 31) % 2 ^ 32 - 2 ^ 31

/-- Models the attribute coercion in `initialise_dataset` (lines 54-58):
booleans and ints become `np.int32`, floats become `np.float` (the alias
of the builtin `float`), everything else passes through unchanged. -/
def coerce_meta_value : PyVal → AttrValue
  | .pybool b => .int32 (toInt32 (if b then 1 else 0))
  | .pyint n => .int32 (toInt32 n)
  | .pyfloat q => .float q
  | .pystr s => .str s

/-- Set (insert or overwrite) an attribute, modelling Python attribute
assignment on a netCDF object: replace the first entry with this key, or
append a new entry. -/
def setAttr {β : Type} (k : String) (v : β) : List (String × β) → List (String × β)
  | [] => [(k, v)]
  | (k', b) :: es => if k' = k then (k', v) :: es else (k', b) :: setAttr k v es

/-- Replace the value stored under a key by applying `f` to it (a no-op
when the key is absent), modelling in-place mutation of a stored object. -/
def updEntry {β : Type} (key : String) (f : β → β) : List (String × β) → List (String × β)
  | [] => []
  | (k', b) :: es => if k' = key then (k', f b) :: es else (k', b) :: updEntry key f es

/-- A NetCDF variable: a dtype, the dimension names it is defined over,
its attributes and its payload. -/
structure NCVariable where
  dtype : String
  dims : List String
  attrs : List (String × AttrValue)
  data : List Rat
deriving Repr, DecidableEq

/-- A NetCDF dataset: global attributes, dimensions (`none` size means
unlimited) and variables keyed by their full (normalised) path. -/
structure NCDataset where
  attrs : List (String × AttrValue)
  dimensions : List (String × Option Nat)
  vars : List (String × NCVariable)
deriving Repr, DecidableEq

def emptyDataset : NCDataset := { attrs := [], dimensions := [], vars := [] }

/-- netCDF4 interprets variable names as paths from the root group, so a
leading `/` is redundant: `"/time"` denotes the root variable `"time"`.
We store keys with leading slashes stripped. -/
def normalizeName (s : String) : String := ⟨s.data.dropWhile (fun c => c = '/')⟩

/-- `Dataset.createDimension(name, size)`: fails if the name is in use. -/
def NCDataset.createDimension (ds : NCDataset) (name : String) (size : Option Nat) :
    Option String × NCDataset :=
  if (alookup name ds.dimensions).isSome then
    (some "NetCDF: String match to name in use", ds)
  else
    (none, { ds with dimensions := ds.dimensions ++ [(name, size)] })

/-- `Dataset.createVariable(name, dtype, dimensions)`: fails if the
(normalised) name is in use or a requested dimension does not exist;
otherwise appends a fresh variable with empty attributes and payload. -/
def NCDataset.createVariable (ds : NCDataset) (name dtype : String)
    (dims : List String) : Option String × NCDataset :=
  if (alookup (normalizeName name) ds.vars).isSome then
    (some "NetCDF: String match to name in use", ds)
  else if ¬ dims.all (fun d => (alookup d ds.dimensions).isSome) then
    (some "NetCDF: Invalid dimension ID or name", ds)
  else
    (none, { ds with vars := ds.vars ++
      [(normalizeName name, { dtype := dtype, dims := dims, attrs := [], data := [] })] })

/-- Apply a mutation (attribute assignment, payload write) to the
variable stored under `name`. -/
def NCDataset.updateVar (ds : NCDataset) (name : String)
    (f : NCVariable → NCVariable) : NCDataset :=
  { ds with vars := updEntry (normalizeName name) f ds.vars }

/-- Root-group variable lookup, modelling the `dataset.vars` dict:
only variables whose path contains no `/` live in the root group. -/
def NCDataset.rootVar (ds : NCDataset) (name : String) : Option NCVariable :=
  if name.data.contains '/' then none else alookup name ds.vars

/-- The `ncHereon` object: the open dataset plus the `self.dims`
dimension registry (only its key set matters). -/
structure ncHereon where
  dataset : NCDataset
  dims : List String
deriving Repr, DecidableEq

/-- Split a character list at its last `/`: returns the head including
that slash, and the tail after it; `none` when there is no slash. -/
def lastSlashSplit : List Char → Option (List Char × List Char)
  | [] => none
  | c :: cs =>
    match lastSlashSplit cs with
    | some (h, t) => some (c :: h, t)
    | none => if c = '/' then some (['/'], cs) else none

/-- Models `os.path.split` for `/`-separated paths: split at the last
slash; the head keeps no trailing slashes unless it consists only of
slashes; with no slash the head is empty. -/
def os_path_split (p : String) : String × String :=
  match lastSlashSplit p.data with
  | none => ("", p)
  | some (h, t) =>
    if h ≠ [] ∧ ¬ h.all (fun c => c = '/') then
      (⟨(h.reverse.dropWhile (fun c => c = '/')).reverse⟩, ⟨t⟩)
    else (⟨h⟩, ⟨t⟩)

/-- `ncHereon._get_time_name` (lines 138-142): replace the last path
segment of `name` by `"time"` and rejoin with `/`. -/
def ncHereon.get_time_name (name : String) : String :=
  (os_path_split name).1 ++ "/" ++ "time"

/-- Resolution of the `time_dimension` keyword: `time_dimension or "T"`
(Python truthiness: `None` and the empty string fall back to `"T"`). -/
def resolveTd : Option String → String
  | none => "T"
  | some s => if s = "" then "T" else s

/-- `ncHereon._check_for_time_dimension` (lines 144-152): when the axis
name is not registered, create the unlimited dimension, register it, and
create the companion time coordinate variable (path-derived name) with
its units, standard name and the supplied time values. -/
def ncHereon.check_for_time_dimension (s : ncHereon) (t : List Rat)
    (name time_dimension : String) : Option String × ncHereon :=
  let tstr := ncHereon.get_time_name name
  if time_dimension ∈ s.dims then (none, s)
  else
    match s.dataset.createDimension time_dimension none with
    | (some e, ds) => (some e, { s with dataset := ds })
    | (none, ds) =>
      let s1 : ncHereon := { dataset := ds, dims := s.dims ++ [time_dimension] }
      match s1.dataset.createVariable tstr "f8" [time_dimension] with
      | (some e, ds2) => (some e, { s1 with dataset := ds2 })
      | (none, ds2) =>
        (none, { s1 with dataset := ds2.updateVar tstr (fun var =>
          { var with
            attrs := setAttr "standard_name" (.str "time")
              (setAttr "units" (.str "seconds since 1-1 1970 00:00:00") var.attrs),
            data := t }) })

/-- `ncHereon._check_for_z_dimension` (lines 154-163): when `"Z"` is not
registered, create the fixed-length dimension from the supplied series'
length, register it, and create the depth coordinate variable `z`. -/
def ncHereon.check_for_z_dimension (s : ncHereon) (z : List Rat) :
    Option String × ncHereon :=
  if "Z" ∈ s.dims then (none, s)
  else
    match s.dataset.createDimension "Z" (some z.length) with
    | (some e, ds) => (some e, { s with dataset := ds })
    | (none, ds) =>
      let s1 : ncHereon := { dataset := ds, dims := s.dims ++ ["Z"] }
      match s1.dataset.createVariable "z" "f8" ["Z"] with
      | (some e, ds2) => (some e, { s1 with dataset := ds2 })
      | (none, ds2) =>
        (none, { s1 with dataset := ds2.updateVar "z" (fun var =>
          { var with
            attrs := setAttr "positive" (.str "down")
              (setAttr "long_name" (.str "water depth relative to sea surface")
              (setAttr "standard_name" (.str "depth")
              (setAttr "units" (.str "m") var.attrs))),
            data := z }) })

/-- `ncHereon.add_parameter` (lines 88-120): two positional series mean a
time series over the resolved time axis; three mean a time × depth
series; any other arity raises `ValueError` with the state untouched. -/
def ncHereon.add_parameter (s : ncHereon) (name unit : String)
    (v : List (List Rat)) (standard_name : Option String)
    (time_dimension : Option String) : Option String × ncHereon :=
  let td := resolveTd time_dimension
  match v with
  | [t, vals] =>
    match s.check_for_time_dimension t name td with
    | (some e, s1) => (some e, s1)
    | (none, s1) =>
      match s1.dataset.createVariable name "f8" [td] with
      | (some e, ds) => (some e, { s1 with dataset := ds })
      | (none, ds) =>
        let s2 : ncHereon := { s1 with dataset := ds.updateVar name (fun var =>
          { var with attrs := setAttr "units" (.str unit) var.attrs, data := vals }) }
        match standard_name with
        | none => (none, s2)
        | some sn => (none, { s2 with dataset := s2.dataset.updateVar name (fun var =>
            { var with attrs := setAttr "standard_name" (.str sn) var.attrs }) })
  | [t, z, vals] =>
    match s.check_for_time_dimension t name td with
    | (some e, s1) => (some e, s1)
    | (none, s1) =>
      match s1.check_for_z_dimension z with
      | (some e, s2) => (some e, s2)
      | (none, s2) =>
        match s2.dataset.createVariable name "f8" [td, "Z"] with
        | (some e, ds) => (some e, { s2 with dataset := ds })
        | (none, ds) =>
          let s3 : ncHereon := { s2 with dataset := ds.updateVar name (fun var =>
            { var with attrs := setAttr "units" (.str unit) var.attrs, data := vals }) }
          match standard_name with
          | none => (none, s3)
          | some sn => (none, { s3 with dataset := s3.dataset.updateVar name (fun var =>
              { var with attrs := setAttr "standard_name" (.str sn) var.attrs }) })
  | _ => (some "Variable type not supported.", s)

/-- `ncHereon.add_meta_variable` (lines 70-86): a zero-dimensional
variable carrying a `unit` attribute and a single scalar value. -/
def ncHereon.add_meta_variable (s : ncHereon) (name unit : String)
    (value : Rat) (dtype : String) : Option String × ncHereon :=
  match s.dataset.createVariable name dtype [] with
  | (some e, ds) => (some e, { s with dataset := ds })
  | (none, ds) =>
    (none, { s with dataset := ds.updateVar name (fun var =>
      { var with attrs := setAttr "unit" (.str unit) var.attrs, data := [value] }) })

/-- `ncHereon.initialise_dataset` (lines 46-59): write the fixed
convention and institution attributes, the caller strings, a creation
timestamp (`now` stands for the formatted `arrow.utcnow()` value) and
the coerced extra metadata.  The `crs` argument is accepted but unused,
exactly as in the source. -/
def ncHereon.initialise_dataset (s : ncHereon)
    (title source originator contact crs : String)
    (meta_data : List (String × PyVal)) (now : String) : ncHereon :=
  let a1 := setAttr "conventions" (AttrValue.str "CF-1.8") s.dataset.attrs
  let a2 := setAttr "institution"
    (AttrValue.str "Helmholtz-Zentrum Hereon, Institute of Coastal Systems, Germany") a1
  let a3 := setAttr "title" (AttrValue.str title) a2
  let a4 := setAttr "source" (AttrValue.str source) a3
  let a5 := setAttr "originator" (AttrValue.str originator) a4
  let a6 := setAttr "contact" (AttrValue.str contact) a5
  let a7 := setAttr "creation_date" (AttrValue.str now) a6
  let a8 := meta_data.foldl (fun acc kv => setAttr kv.1 (coerce_meta_value kv.2) acc) a7
  { s with dataset := { s.dataset with attrs := a8 } }

/-- `ncHereon.__init__` (lines 40-44): `Dataset(filename, mode)` opens a
fresh file in write mode and the existing `file` otherwise; the registry
starts empty; metadata is written only in write mode. -/
def ncHereon.init (file : NCDataset) (mode : String)
    (title source originator contact crs : String)
    (meta_data : List (String × PyVal)) (now : String) : ncHereon :=
  let dataset := if mode = "w" then emptyDataset else file
  let s : ncHereon := { dataset := dataset, dims := [] }
  if mode = "w" then
    s.initialise_dataset title source originator contact crs meta_data now
  else s

/-- `ncHereon.close` / `__exit__`: the persisted file is the dataset. -/
def ncHereon.close (s : ncHereon) : NCDataset := s.dataset

/-- Read a list of root variables in order; the first missing name
raises `KeyError` (Python dict lookup inside the list comprehension). -/
def NCDataset.readVars (ds : NCDataset) : List String → Except String (List (List Rat))
  | [] => .ok []
  | n :: rest =>
    match ds.rootVar n with
    | none => .error ("KeyError: " ++ n)
    | some var =>
      match ds.readVars rest with
      | .error e => .error e
      | .ok l => .ok (var.data :: l)

/-- `ncHereon.get` (lines 126-130): read the variable literally named
`time`, then the requested parameter, then any extra parameters. -/
def ncHereon.get (s : ncHereon) (parameter : String) (p : List String) :
    Except String (List (List Rat)) :=
  s.dataset.readVars ("time" :: parameter :: p)

/-- One `add_parameter` call, as a record, for stating trace properties. -/
structure APCall where
  name : String
  unit : String
  v : List (List Rat)
  standard_name : Option String
  time_dimension : Option String
deriving Repr, DecidableEq

/-- Run a sequence of `add_parameter` calls, keeping the state each call
leaves behind (a raising call leaves the state it mutated so far). -/
def runCalls (s : ncHereon) (cs : List APCall) : ncHereon :=
  cs.foldl (fun st c =>
    (st.add_parameter c.name c.unit c.v c.standard_name c.time_dimension).2) s

/-- The companion time coordinate variable as materialised by the first
call requesting a given time axis. -/
def timeCoordVar (td : String) (t : List Rat) : NCVariable :=
  ⟨"f8", [td],
   [("units", AttrValue.str "seconds since 1-1 1970 00:00:00"),
    ("standard_name", AttrValue.str "time")], t⟩

/-- The depth coordinate variable as materialised by the first call
supplying a depth series. -/
def depthCoordVar (z : List Rat) : NCVariable :=
  ⟨"f8", ["Z"],
   [("units", AttrValue.str "m"),
    ("standard_name", AttrValue.str "depth"),
    ("long_name", AttrValue.str "water depth relative to sea surface"),
    ("positive", AttrValue.str "down")], z⟩

/-! Concrete states and series used to instantiate the general theorems
on small inputs. -/

def c1_first : ncHereon :=
  ((⟨emptyDataset, []⟩ : ncHereon).add_parameter "latitude" "degree north"
    [[(0 : Rat)], [(54 : Rat)]] none none).2

def c1_cs : List APCall :=
  [⟨"longitude", "degree east", [[(0 : Rat)], [(8 : Rat)]], none, none⟩]

def c2_t : List Rat := (List.range 100).map (fun i => (i : Rat))

def c2_lat : List Rat := (List.range 100).map (fun i => 54 + (i : Rat) / 99)

def c3_s : ncHereon :=
  ((⟨emptyDataset, []⟩ : ncHereon).add_parameter "u" "m/s"
    [[(0 : Rat)], [(1 : Rat), (2 : Rat)], [(5 : Rat)]] none none).2

def c6_state : ncHereon :=
  ncHereon.init emptyDataset "w" "" "" "" "" "WGS84" [] "2026-01-01T00:00:00"

def c9_state : ncHereon :=
  ((⟨emptyDataset, []⟩ : ncHereon).add_parameter "glider_flight/x" "m"
    [[(0 : Rat)], [(1 : Rat)]] none (some "Tgf")).2


/-! ## Association-list lemmas -/

theorem alookup_append_some {β : Type} {l1 l2 : List (String × β)} {k : String}
    {b : β} (h : alookup k l1 = some b) : alookup k (l1 ++ l2) = some b := by
  induction l1 with
  | nil => simp [alookup] at h
  | cons p tl ih =>
    obtain ⟨k', v⟩ := p
    by_cases hk : k = k'
    · simp only [alookup, if_pos hk] at h ⊢
      exact h
    · simp only [alookup, List.cons_append, if_neg hk] at h ⊢
      exact ih h

theorem alookup_append_none {β : Type} {l1 : List (String × β)}
    (l2 : List (String × β)) {k : String} (h : alookup k l1 = none) :
    alookup k (l1 ++ l2) = alookup k l2 := by
  induction l1 with
  | nil => simp
  | cons p tl ih =>
    obtain ⟨k', v⟩ := p
    by_cases hk : k = k'
    · simp only [alookup, if_pos hk] at h
      exact absurd h (by simp)
    · simp only [alookup, List.cons_append, if_neg hk] at h ⊢
      exact ih h

theorem alookup_updEntry_ne {β : Type} (l : List (String × β)) (key k : String)
    (f : β → β) (h : k ≠ key) :
    alookup k (updEntry key f l) = alookup k l := by
  induction l with
  | nil => simp [updEntry]
  | cons p tl ih =>
    obtain ⟨k', v⟩ := p
    by_cases hk' : k' = key
    · have hkk : k ≠ k' := fun hc => h (hc.trans hk')
      simp only [updEntry, if_pos hk', alookup, if_neg hkk]
    · simp only [updEntry, if_neg hk', alookup]
      by_cases hkk : k = k'
      · simp only [if_pos hkk]
      · simp only [if_neg hkk]
        exact ih

theorem alookup_updEntry_eq {β : Type} (l : List (String × β)) (key : String)
    (f : β → β) :
    alookup key (updEntry key f l) = (alookup key l).map f := by
  induction l with
  | nil => simp [updEntry, alookup]
  | cons p tl ih =>
    obtain ⟨k', v⟩ := p
    by_cases hk' : k' = key
    · simp only [updEntry, if_pos hk', alookup, if_pos hk'.symm]
      rfl
    · have hkk : key ≠ k' := fun hc => hk' hc.symm
      simp only [updEntry, if_neg hk', alookup, if_neg hkk]
      exact ih

theorem updEntry_of_none {β : Type} (l : List (String × β)) (key : String)
    (f : β → β) (h : alookup key l = none) : updEntry key f l = l := by
  induction l with
  | nil => rfl
  | cons p tl ih =>
    obtain ⟨k', v⟩ := p
    by_cases hk : key = k'
    · simp only [alookup, if_pos hk] at h
      exact absurd h (by simp)
    · have hk' : k' ≠ key := fun hc => hk hc.symm
      simp only [alookup, if_neg hk] at h
      simp only [updEntry, if_neg hk', ih h]

theorem alookup_setAttr_ne {β : Type} (l : List (String × β)) (key k : String)
    (v : β) (h : k ≠ key) : alookup k (setAttr key v l) = alookup k l := by
  induction l with
  | nil => simp [setAttr, alookup, h]
  | cons p tl ih =>
    obtain ⟨k', b⟩ := p
    by_cases hk' : k' = key
    · have hkk : k ≠ k' := fun hc => h (hc.trans hk')
      simp only [setAttr, if_pos hk', alookup, if_neg hkk]
    · simp only [setAttr, if_neg hk', alookup]
      by_cases hkk : k = k'
      · simp only [if_pos hkk]
      · simp only [if_neg hkk]
        exact ih

theorem alookup_setAttr_eq {β : Type} (l : List (String × β)) (key : String)
    (v : β) : alookup key (setAttr key v l) = some v := by
  induction l with
  | nil => simp [setAttr, alookup]
  | cons p tl ih =>
    obtain ⟨k', b⟩ := p
    by_cases hk' : k' = key
    · simp only [setAttr, if_pos hk', alookup, if_pos hk'.symm]
    · have hkk : key ≠ k' := fun hc => hk' hc.symm
      simp only [setAttr, if_neg hk', alookup, if_neg hkk]
      exact ih

/-! ## Storage-operation lemmas -/

theorem createDimension_vars (ds : NCDataset) (n : String) (sz : Option Nat) :
    ((ds.createDimension n sz).2).vars = ds.vars := by
  unfold NCDataset.createDimension
  split <;> rfl

theorem createDimension_dim_mono {ds : NCDataset} (n : String) (sz : Option Nat)
    {d : String} {x : Option Nat} (h : alookup d ds.dimensions = some x) :
    alookup d ((ds.createDimension n sz).2).dimensions = some x := by
  unfold NCDataset.createDimension
  split
  · exact h
  · exact alookup_append_some h

theorem createVariable_dims (ds : NCDataset) (n dt : String) (dl : List String) :
    ((ds.createVariable n dt dl).2).dimensions = ds.dimensions := by
  unfold NCDataset.createVariable
  split
  · rfl
  · split <;> rfl

theorem createVariable_var_mono {ds : NCDataset} (n dt : String) (dl : List String)
    {w : String} {var : NCVariable} (h : alookup w ds.vars = some var) :
    alookup w ((ds.createVariable n dt dl).2).vars = some var := by
  unfold NCDataset.createVariable
  split
  · exact h
  · split
    · exact h
    · exact alookup_append_some h

theorem createVariable_ok {ds ds' : NCDataset} {name dt : String}
    {dl : List String} (h : ds.createVariable name dt dl = (none, ds')) :
    alookup (normalizeName name) ds.vars = none ∧
    ds' = { ds with vars := ds.vars ++
      [(normalizeName name, ⟨dt, dl, [], []⟩)] } := by
  unfold NCDataset.createVariable at h
  split at h
  · simp at h
  · split at h
    · simp at h
    · rename_i hsome _
      refine ⟨?_, ?_⟩
      · cases hl : alookup (normalizeName name) ds.vars with
        | some b => rw [hl] at hsome; simp at hsome
        | none => rfl
      · simp only [Prod.mk.injEq] at h
        exact h.2.symm

theorem createDimension_ok {ds ds' : NCDataset} {n : String} {sz : Option Nat}
    (h : ds.createDimension n sz = (none, ds')) :
    alookup n ds.dimensions = none ∧
    ds' = { ds with dimensions := ds.dimensions ++ [(n, sz)] } := by
  unfold NCDataset.createDimension at h
  split at h
  · simp at h
  · rename_i hsome
    refine ⟨?_, ?_⟩
    · cases hl : alookup n ds.dimensions with
      | some b => rw [hl] at hsome; simp at hsome
      | none => rfl
    · simp only [Prod.mk.injEq] at h
      exact h.2.symm

theorem updateVar_dims (ds : NCDataset) (n : String) (f : NCVariable → NCVariable) :
    (ds.updateVar n f).dimensions = ds.dimensions := rfl

theorem updateVar_var_ne {ds : NCDataset} (n : String) (f : NCVariable → NCVariable)
    {w : String} {var : NCVariable} (hne : w ≠ normalizeName n)
    (h : alookup w ds.vars = some var) :
    alookup w ((ds.updateVar n f).vars) = some var := by
  unfold NCDataset.updateVar
  rw [alookup_updEntry_ne _ _ _ _ hne]
  exact h

/-! ## Lemmas about the dimension-registry helpers -/

theorem tcheck_noop {s : ncHereon} (t : List Rat) (name : String)
    {td : String} (h : td ∈ s.dims) :
    s.check_for_time_dimension t name td = (none, s) := by
  unfold ncHereon.check_for_time_dimension
  rw [if_pos h]

theorem zcheck_noop {s : ncHereon} (z : List Rat) (h : "Z" ∈ s.dims) :
    s.check_for_z_dimension z = (none, s) := by
  unfold ncHereon.check_for_z_dimension
  rw [if_pos h]

theorem tcheck_var_mono (s : ncHereon) (t : List Rat) (name td : String)
    {w : String} {var : NCVariable} (h : alookup w s.dataset.vars = some var) :
    alookup w ((s.check_for_time_dimension t name td).2).dataset.vars = some var := by
  unfold ncHereon.check_for_time_dimension
  split
  · exact h
  · cases hcd : s.dataset.createDimension td none with
  | mk eo ds =>
    have hdsv : ds.vars = s.dataset.vars := by
      have := createDimension_vars s.dataset td none
      rw [hcd] at this
      exact this
    have hds : alookup w ds.vars = some var := by rw [hdsv]; exact h
    cases eo with
    | some e => exact hds
    | none =>
      dsimp only
      cases hcv : ds.createVariable (ncHereon.get_time_name name) "f8" [td] with
      | mk eo2 ds2 =>
        have hds2 : alookup w ds2.vars = some var := by
          have := createVariable_var_mono (ncHereon.get_time_name name) "f8" [td] hds
          rw [hcv] at this
          exact this
        cases eo2 with
        | some e => exact hds2
        | none =>
          obtain ⟨hfresh, hform⟩ := createVariable_ok hcv
          have hne : w ≠ normalizeName (ncHereon.get_time_name name) := by
            intro hc
            rw [hc, hfresh] at hds
            exact (Option.some_ne_none var hds.symm)
          exact updateVar_var_ne _ _ hne hds2

theorem tcheck_dim_mono (s : ncHereon) (t : List Rat) (name td : String)
    {d : String} {x : Option Nat} (h : alookup d s.dataset.dimensions = some x) :
    alookup d ((s.check_for_time_dimension t name td).2).dataset.dimensions = some x := by
  unfold ncHereon.check_for_time_dimension
  split
  · exact h
  · cases hcd : s.dataset.createDimension td none with
  | mk eo ds =>
    have hds : alookup d ds.dimensions = some x := by
      have := createDimension_dim_mono td none h
      rw [hcd] at this
      exact this
    cases eo with
    | some e => exact hds
    | none =>
      dsimp only
      cases hcv : ds.createVariable (ncHereon.get_time_name name) "f8" [td] with
      | mk eo2 ds2 =>
        have hds2 : alookup d ds2.dimensions = some x := by
          have := createVariable_dims ds (ncHereon.get_time_name name) "f8" [td]
          rw [hcv] at this
          rw [this]
          exact hds
        cases eo2 with
        | some e => exact hds2
        | none =>
          exact hds2

theorem tcheck_registry_mono (s : ncHereon) (t : List Rat) (name td : String)
    {d : String} (h : d ∈ s.dims) :
    d ∈ ((s.check_for_time_dimension t name td).2).dims := by
  unfold ncHereon.check_for_time_dimension
  split
  · exact h
  · cases hcd : s.dataset.createDimension td none with
  | mk eo ds =>
    cases eo with
    | some e => exact h
    | none =>
      dsimp only
      cases hcv : ds.createVariable (ncHereon.get_time_name name) "f8" [td] with
      | mk eo2 ds2 =>
        cases eo2 with
        | some e => exact List.mem_append_left _ h
        | none => exact List.mem_append_left _ h

theorem zcheck_var_mono (s : ncHereon) (z : List Rat)
    {w : String} {var : NCVariable} (h : alookup w s.dataset.vars = some var) :
    alookup w ((s.check_for_z_dimension z).2).dataset.vars = some var := by
  unfold ncHereon.check_for_z_dimension
  split
  · exact h
  · cases hcd : s.dataset.createDimension "Z" (some z.length) with
  | mk eo ds =>
    have hdsv : ds.vars = s.dataset.vars := by
      have := createDimension_vars s.dataset "Z" (some z.length)
      rw [hcd] at this
      exact this
    have hds : alookup w ds.vars = some var := by rw [hdsv]; exact h
    cases eo with
    | some e => exact hds
    | none =>
      dsimp only
      cases hcv : ds.createVariable "z" "f8" ["Z"] with
      | mk eo2 ds2 =>
        have hds2 : alookup w ds2.vars = some var := by
          have := createVariable_var_mono "z" "f8" ["Z"] hds
          rw [hcv] at this
          exact this
        cases eo2 with
        | some e => exact hds2
        | none =>
          obtain ⟨hfresh, hform⟩ := createVariable_ok hcv
          have hne : w ≠ normalizeName "z" := by
            intro hc
            rw [hc, hfresh] at hds
            exact (Option.some_ne_none var hds.symm)
          exact updateVar_var_ne _ _ hne hds2

theorem zcheck_dim_mono (s : ncHereon) (z : List Rat)
    {d : String} {x : Option Nat} (h : alookup d s.dataset.dimensions = some x) :
    alookup d ((s.check_for_z_dimension z).2).dataset.dimensions = some x := by
  unfold ncHereon.check_for_z_dimension
  split
  · exact h
  · cases hcd : s.dataset.createDimension "Z" (some z.length) with
  | mk eo ds =>
    have hds : alookup d ds.dimensions = some x := by
      have := createDimension_dim_mono "Z" (some z.length) h
      rw [hcd] at this
      exact this
    cases eo with
    | some e => exact hds
    | none =>
      dsimp only
      cases hcv : ds.createVariable "z" "f8" ["Z"] with
      | mk eo2 ds2 =>
        have hds2 : alookup d ds2.dimensions = some x := by
          have := createVariable_dims ds "z" "f8" ["Z"]
          rw [hcv] at this
          rw [this]
          exact hds
        cases eo2 with
        | some e => exact hds2
        | none =>
          exact hds2

theorem zcheck_registry_mono (s : ncHereon) (z : List Rat)
    {d : String} (h : d ∈ s.dims) :
    d ∈ ((s.check_for_z_dimension z).2).dims := by
  unfold ncHereon.check_for_z_dimension
  split
  · exact h
  · cases hcd : s.dataset.createDimension "Z" (some z.length) with
  | mk eo ds =>
    cases eo with
    | some e => exact h
    | none =>
      dsimp only
      cases hcv : ds.createVariable "z" "f8" ["Z"] with
      | mk eo2 ds2 =>
        cases eo2 with
        | some e => exact List.mem_append_left _ h
        | none => exact List.mem_append_left _ h

/-! ## Monotonicity of `add_parameter`: existing dimensions, variables and
registry entries are never modified by any later call. -/

theorem add_parameter_var_mono (s : ncHereon) (name unit : String)
    (v : List (List Rat)) (sn tda : Option String)
    {w : String} {var : NCVariable} (h : alookup w s.dataset.vars = some var) :
    alookup w ((s.add_parameter name unit v sn tda).2).dataset.vars = some var := by
  unfold ncHereon.add_parameter
  dsimp only
  match v with
  | [] => exact h
  | [t] => exact h
  | [t, vals] =>
    dsimp only
    cases htc : s.check_for_time_dimension t name (resolveTd tda) with
    | mk eo s1 =>
      have h1 : alookup w s1.dataset.vars = some var := by
        have := tcheck_var_mono s t name (resolveTd tda) h
        rw [htc] at this
        exact this
      cases eo with
      | some e => exact h1
      | none =>
        dsimp only
        cases hcv : s1.dataset.createVariable name "f8" [resolveTd tda] with
        | mk eo2 ds =>
          have h2 : alookup w ds.vars = some var := by
            have := createVariable_var_mono name "f8" [resolveTd tda] h1
            rw [hcv] at this
            exact this
          cases eo2 with
          | some e => exact h2
          | none =>
            obtain ⟨hfresh, _⟩ := createVariable_ok hcv
            have hne : w ≠ normalizeName name := by
              intro hc
              rw [hc, hfresh] at h1
              exact (Option.some_ne_none var h1.symm)
            cases sn with
            | none => exact updateVar_var_ne _ _ hne h2
            | some str =>
              exact updateVar_var_ne _ _ hne (updateVar_var_ne _ _ hne h2)
  | [t, z, vals] =>
    dsimp only
    cases htc : s.check_for_time_dimension t name (resolveTd tda) with
    | mk eo s1 =>
      have h1 : alookup w s1.dataset.vars = some var := by
        have := tcheck_var_mono s t name (resolveTd tda) h
        rw [htc] at this
        exact this
      cases eo with
      | some e => exact h1
      | none =>
        dsimp only
        cases hzc : s1.check_for_z_dimension z with
        | mk eoz s2 =>
          have h2 : alookup w s2.dataset.vars = some var := by
            have := zcheck_var_mono s1 z h1
            rw [hzc] at this
            exact this
          cases eoz with
          | some e => exact h2
          | none =>
            dsimp only
            cases hcv : s2.dataset.createVariable name "f8" [resolveTd tda, "Z"] with
            | mk eo2 ds =>
              have h3 : alookup w ds.vars = some var := by
                have := createVariable_var_mono name "f8" [resolveTd tda, "Z"] h2
                rw [hcv] at this
                exact this
              cases eo2 with
              | some e => exact h3
              | none =>
                obtain ⟨hfresh, _⟩ := createVariable_ok hcv
                have hne : w ≠ normalizeName name := by
                  intro hc
                  rw [hc, hfresh] at h2
                  exact (Option.some_ne_none var h2.symm)
                cases sn with
                | none => exact updateVar_var_ne _ _ hne h3
                | some str =>
                  exact updateVar_var_ne _ _ hne (updateVar_var_ne _ _ hne h3)
  | t :: z :: vals :: d :: tl => exact h

theorem add_parameter_dim_mono (s : ncHereon) (name unit : String)
    (v : List (List Rat)) (sn tda : Option String)
    {d : String} {x : Option Nat} (h : alookup d s.dataset.dimensions = some x) :
    alookup d ((s.add_parameter name unit v sn tda).2).dataset.dimensions = some x := by
  unfold ncHereon.add_parameter
  dsimp only
  match v with
  | [] => exact h
  | [t] => exact h
  | [t, vals] =>
    dsimp only
    cases htc : s.check_for_time_dimension t name (resolveTd tda) with
    | mk eo s1 =>
      have h1 : alookup d s1.dataset.dimensions = some x := by
        have := tcheck_dim_mono s t name (resolveTd tda) h
        rw [htc] at this
        exact this
      cases eo with
      | some e => exact h1
      | none =>
        dsimp only
        cases hcv : s1.dataset.createVariable name "f8" [resolveTd tda] with
        | mk eo2 ds =>
          have h2 : alookup d ds.dimensions = some x := by
            have := createVariable_dims s1.dataset name "f8" [resolveTd tda]
            rw [hcv] at this
            rw [this]
            exact h1
          cases eo2 with
          | some e => exact h2
          | none =>
            cases sn with
            | none => exact h2
            | some str => exact h2
  | [t, z, vals] =>
    dsimp only
    cases htc : s.check_for_time_dimension t name (resolveTd tda) with
    | mk eo s1 =>
      have h1 : alookup d s1.dataset.dimensions = some x := by
        have := tcheck_dim_mono s t name (resolveTd tda) h
        rw [htc] at this
        exact this
      cases eo with
      | some e => exact h1
      | none =>
        dsimp only
        cases hzc : s1.check_for_z_dimension z with
        | mk eoz s2 =>
          have h2 : alookup d s2.dataset.dimensions = some x := by
            have := zcheck_dim_mono s1 z h1
            rw [hzc] at this
            exact this
          cases eoz with
          | some e => exact h2
          | none =>
            dsimp only
            cases hcv : s2.dataset.createVariable name "f8" [resolveTd tda, "Z"] with
            | mk eo2 ds =>
              have h3 : alookup d ds.dimensions = some x := by
                have := createVariable_dims s2.dataset name "f8" [resolveTd tda, "Z"]
                rw [hcv] at this
                rw [this]
                exact h2
              cases eo2 with
              | some e => exact h3
              | none =>
                cases sn with
                | none => exact h3
                | some str => exact h3
  | t :: z :: vals :: d' :: tl => exact h

theorem add_parameter_registry_mono (s : ncHereon) (name unit : String)
    (v : List (List Rat)) (sn tda : Option String)
    {d : String} (h : d ∈ s.dims) :
    d ∈ ((s.add_parameter name unit v sn tda).2).dims := by
  unfold ncHereon.add_parameter
  dsimp only
  match v with
  | [] => exact h
  | [t] => exact h
  | [t, vals] =>
    dsimp only
    cases htc : s.check_for_time_dimension t name (resolveTd tda) with
    | mk eo s1 =>
      have h1 : d ∈ s1.dims := by
        have := tcheck_registry_mono s t name (resolveTd tda) h
        rw [htc] at this
        exact this
      cases eo with
      | some e => exact h1
      | none =>
        dsimp only
        cases hcv : s1.dataset.createVariable name "f8" [resolveTd tda] with
        | mk eo2 ds =>
          cases eo2 with
          | some e => exact h1
          | none =>
            cases sn with
            | none => exact h1
            | some str => exact h1
  | [t, z, vals] =>
    dsimp only
    cases htc : s.check_for_time_dimension t name (resolveTd tda) with
    | mk eo s1 =>
      have h1 : d ∈ s1.dims := by
        have := tcheck_registry_mono s t name (resolveTd tda) h
        rw [htc] at this
        exact this
      cases eo with
      | some e => exact h1
      | none =>
        dsimp only
        cases hzc : s1.check_for_z_dimension z with
        | mk eoz s2 =>
          have h2 : d ∈ s2.dims := by
            have := zcheck_registry_mono s1 z h1
            rw [hzc] at this
            exact this
          cases eoz with
          | some e => exact h2
          | none =>
            dsimp only
            cases hcv : s2.dataset.createVariable name "f8" [resolveTd tda, "Z"] with
            | mk eo2 ds =>
              cases eo2 with
              | some e => exact h2
              | none =>
                cases sn with
                | none => exact h2
                | some str => exact h2
  | t :: z :: vals :: d' :: tl => exact h

/-! ## Creation lemmas: the first call naming a fresh axis materialises
the dimension and its coordinate variable from that call's series. -/

theorem tcheck_creates (s : ncHereon) (t : List Rat) (name td : String)
    (h2 : td ∉ s.dims)
    (h3 : alookup td s.dataset.dimensions = none)
    (h4 : alookup (normalizeName (ncHereon.get_time_name name)) s.dataset.vars = none) :
    (s.check_for_time_dimension t name td).1 = none ∧
    (s.check_for_time_dimension t name td).2.dims = s.dims ++ [td] ∧
    alookup td ((s.check_for_time_dimension t name td).2).dataset.dimensions = some none ∧
    alookup (normalizeName (ncHereon.get_time_name name))
        ((s.check_for_time_dimension t name td).2).dataset.vars
      = some ⟨"f8", [td],
          [("units", AttrValue.str "seconds since 1-1 1970 00:00:00"),
           ("standard_name", AttrValue.str "time")], t⟩ := by
  have hcd : s.dataset.createDimension td none =
      (none, { s.dataset with dimensions := s.dataset.dimensions ++ [(td, none)] }) := by
    unfold NCDataset.createDimension
    rw [h3]
    rfl
  have hdim : alookup td (s.dataset.dimensions ++ [(td, none)]) = some none := by
    rw [alookup_append_none _ h3]
    simp [alookup]
  have hcv : ({ s.dataset with dimensions := s.dataset.dimensions ++ [(td, none)] }
        : NCDataset).createVariable (ncHereon.get_time_name name) "f8" [td] =
      (none, { s.dataset with
        dimensions := s.dataset.dimensions ++ [(td, none)],
        vars := s.dataset.vars ++
          [(normalizeName (ncHereon.get_time_name name), ⟨"f8", [td], [], []⟩)] }) := by
    unfold NCDataset.createVariable
    simp [h4, hdim]
  unfold ncHereon.check_for_time_dimension
  rw [if_neg h2]
  rw [hcd]
  dsimp only
  rw [hcv]
  dsimp only
  refine ⟨rfl, rfl, ?_, ?_⟩
  · exact hdim
  · unfold NCDataset.updateVar
    dsimp only
    rw [alookup_updEntry_eq]
    rw [alookup_append_none _ h4]
    simp [alookup, setAttr]

theorem zcheck_creates (s : ncHereon) (z : List Rat)
    (h2 : "Z" ∉ s.dims)
    (h3 : alookup "Z" s.dataset.dimensions = none)
    (h4 : alookup "z" s.dataset.vars = none) :
    (s.check_for_z_dimension z).1 = none ∧
    (s.check_for_z_dimension z).2.dims = s.dims ++ ["Z"] ∧
    alookup "Z" ((s.check_for_z_dimension z).2).dataset.dimensions = some (some z.length) ∧
    alookup "z" ((s.check_for_z_dimension z).2).dataset.vars
      = some ⟨"f8", ["Z"],
          [("units", AttrValue.str "m"),
           ("standard_name", AttrValue.str "depth"),
           ("long_name", AttrValue.str "water depth relative to sea surface"),
           ("positive", AttrValue.str "down")], z⟩ := by
  have hcd : s.dataset.createDimension "Z" (some z.length) =
      (none, { s.dataset with
        dimensions := s.dataset.dimensions ++ [("Z", some z.length)] }) := by
    unfold NCDataset.createDimension
    rw [h3]
    rfl
  have hdim : alookup "Z" (s.dataset.dimensions ++ [("Z", some z.length)])
      = some (some z.length) := by
    rw [alookup_append_none _ h3]
    simp [alookup]
  have hz : normalizeName "z" = "z" := rfl
  have h4' : alookup (normalizeName "z") s.dataset.vars = none := by rw [hz]; exact h4
  have hcv : ({ s.dataset with
        dimensions := s.dataset.dimensions ++ [("Z", some z.length)] }
        : NCDataset).createVariable "z" "f8" ["Z"] =
      (none, { s.dataset with
        dimensions := s.dataset.dimensions ++ [("Z", some z.length)],
        vars := s.dataset.vars ++ [("z", ⟨"f8", ["Z"], [], []⟩)] }) := by
    unfold NCDataset.createVariable
    simp [h4', hdim, alookup, hz, h4]
  unfold ncHereon.check_for_z_dimension
  rw [if_neg h2]
  rw [hcd]
  dsimp only
  rw [hcv]
  dsimp only
  refine ⟨rfl, rfl, ?_, ?_⟩
  · exact hdim
  · unfold NCDataset.updateVar
    dsimp only
    rw [show normalizeName "z" = "z" from rfl]
    rw [alookup_updEntry_eq]
    rw [alookup_append_none _ h4]
    simp [alookup, setAttr]

theorem runCalls_dim_mono (cs : List APCall) (s : ncHereon)
    {d : String} {x : Option Nat} (h : alookup d s.dataset.dimensions = some x) :
    alookup d (runCalls s cs).dataset.dimensions = some x := by
  induction cs generalizing s with
  | nil => exact h
  | cons c tl ih =>
    unfold runCalls
    rw [List.foldl_cons]
    exact ih _ (add_parameter_dim_mono s c.name c.unit c.v c.standard_name c.time_dimension h)

theorem runCalls_var_mono (cs : List APCall) (s : ncHereon)
    {w : String} {var : NCVariable} (h : alookup w s.dataset.vars = some var) :
    alookup w (runCalls s cs).dataset.vars = some var := by
  induction cs generalizing s with
  | nil => exact h
  | cons c tl ih =>
    unfold runCalls
    rw [List.foldl_cons]
    exact ih _ (add_parameter_var_mono s c.name c.unit c.v c.standard_name c.time_dimension h)

theorem add_parameter_tcreates (s : ncHereon) (name unit : String)
    (t : List Rat) (rest : List (List Rat)) (sn tda : Option String) (td : String)
    (h1 : resolveTd tda = td)
    (h2 : td ∉ s.dims)
    (h3 : alookup td s.dataset.dimensions = none)
    (h4 : alookup (normalizeName (ncHereon.get_time_name name)) s.dataset.vars = none)
    (h6 : rest.length = 1 ∨ rest.length = 2) :
    alookup td ((s.add_parameter name unit (t :: rest) sn tda).2).dataset.dimensions
      = some none ∧
    alookup (normalizeName (ncHereon.get_time_name name))
        ((s.add_parameter name unit (t :: rest) sn tda).2).dataset.vars
      = some (timeCoordVar td t) := by
  obtain ⟨hok, hreg, hdim, hvar⟩ := tcheck_creates s t name td h2 h3 h4
  unfold ncHereon.add_parameter
  rw [h1]
  dsimp only
  match rest, h6 with
  | [vals], _ =>
    dsimp only
    cases hS : s.check_for_time_dimension t name td with
    | mk eo s1 =>
      rw [hS] at hok hdim hvar
      dsimp only at hok hdim hvar
      subst hok
      dsimp only
      cases hcv : s1.dataset.createVariable name "f8" [td] with
      | mk eo2 ds =>
        have hdim2 : alookup td ds.dimensions = some none := by
          have := createVariable_dims s1.dataset name "f8" [td]
          rw [hcv] at this
          rw [this]
          exact hdim
        have hvar2 : alookup (normalizeName (ncHereon.get_time_name name)) ds.vars
            = some (timeCoordVar td t) := by
          have := createVariable_var_mono name "f8" [td] hvar
          rw [hcv] at this
          exact this
        cases eo2 with
        | some e => exact ⟨hdim2, hvar2⟩
        | none =>
          obtain ⟨hfresh, _⟩ := createVariable_ok hcv
          have hne : normalizeName (ncHereon.get_time_name name) ≠ normalizeName name := by
            intro hc
            rw [hc, hfresh] at hvar
            exact Option.some_ne_none _ hvar.symm
          cases sn with
          | none => exact ⟨hdim2, updateVar_var_ne _ _ hne hvar2⟩
          | some str =>
            exact ⟨hdim2, updateVar_var_ne _ _ hne (updateVar_var_ne _ _ hne hvar2)⟩
  | [z, vals], _ =>
    dsimp only
    cases hS : s.check_for_time_dimension t name td with
    | mk eo s1 =>
      rw [hS] at hok hdim hvar
      dsimp only at hok hdim hvar
      subst hok
      dsimp only
      cases hzc : s1.check_for_z_dimension z with
      | mk eoz s2 =>
        have hdimz : alookup td s2.dataset.dimensions = some none := by
          have := zcheck_dim_mono s1 z hdim
          rw [hzc] at this
          exact this
        have hvarz : alookup (normalizeName (ncHereon.get_time_name name)) s2.dataset.vars
            = some (timeCoordVar td t) := by
          have := zcheck_var_mono s1 z hvar
          rw [hzc] at this
          exact this
        cases eoz with
        | some e => exact ⟨hdimz, hvarz⟩
        | none =>
          dsimp only
          cases hcv : s2.dataset.createVariable name "f8" [td, "Z"] with
          | mk eo2 ds =>
            have hdim2 : alookup td ds.dimensions = some none := by
              have := createVariable_dims s2.dataset name "f8" [td, "Z"]
              rw [hcv] at this
              rw [this]
              exact hdimz
            have hvar2 : alookup (normalizeName (ncHereon.get_time_name name)) ds.vars
                = some (timeCoordVar td t) := by
              have := createVariable_var_mono name "f8" [td, "Z"] hvarz
              rw [hcv] at this
              exact this
            cases eo2 with
            | some e => exact ⟨hdim2, hvar2⟩
            | none =>
              obtain ⟨hfresh, _⟩ := createVariable_ok hcv
              have hne : normalizeName (ncHereon.get_time_name name) ≠ normalizeName name := by
                intro hc
                rw [hc, hfresh] at hvarz
                exact Option.some_ne_none _ hvarz.symm
              cases sn with
              | none => exact ⟨hdim2, updateVar_var_ne _ _ hne hvar2⟩
              | some str =>
                exact ⟨hdim2, updateVar_var_ne _ _ hne (updateVar_var_ne _ _ hne hvar2)⟩

/-! ## Claim theorems -/

/-- C4: for every open dataset, an `add_parameter` call whose number of
positional series is neither 2 nor 3 fails with the `ValueError`
"Variable type not supported." and returns the state completely
unchanged: no variable is created and no dimension is registered. -/
theorem add_parameter_arity_rejection (s : ncHereon) (name unit : String)
    (v : List (List Rat)) (sn tda : Option String)
    (h2 : v.length ≠ 2) (h3 : v.length ≠ 3) :
    s.add_parameter name unit v sn tda
      = (some "Variable type not supported.", s) := by
  unfold ncHereon.add_parameter
  dsimp only
  match v with
  | [] => rfl
  | [t] => rfl
  | [t, vals] => exact absurd rfl h2
  | [t, z, vals] => exact absurd rfl h3
  | a :: b :: c :: d :: tl => rfl

/-- Witness for C4: a single-series call on a fresh dataset raises and
leaves the state untouched. -/
theorem add_parameter_arity_rejection_witness :
    ([[(1 : Rat)]] : List (List Rat)).length ≠ 2 ∧
    ([[(1 : Rat)]] : List (List Rat)).length ≠ 3 ∧
    (⟨emptyDataset, []⟩ : ncHereon).add_parameter "x" "u0" [[(1 : Rat)]] none none
      = (some "Variable type not supported.", (⟨emptyDataset, []⟩ : ncHereon)) :=
  ⟨by decide, by decide,
   add_parameter_arity_rejection ⟨emptyDataset, []⟩ "x" "u0" [[(1 : Rat)]] none none
     (by decide) (by decide)⟩

/-- C7: opening a dataset in read mode writes no global metadata: the
constructor returns the existing file unchanged (with an empty
dimension registry) and in particular every global attribute of the
file is left exactly as it was. -/
theorem read_mode_writes_no_metadata (file : NCDataset)
    (title source originator contact crs now : String)
    (meta : List (String × PyVal)) :
    ncHereon.init file "r" title source originator contact crs meta now
      = ⟨file, []⟩ ∧
    (ncHereon.init file "r" title source originator contact crs meta now).dataset.attrs
      = file.attrs :=
  ⟨rfl, rfl⟩

/-- C2: a dataset opened in write mode, populated by the single call
`add_parameter("latitude", "degree north", t, lat)` with `t` the
integers 0..99 and `lat` 100 evenly spaced values between 54 and 55,
then closed and reopened in read mode, returns `[t, lat]` from
`get("latitude")`, equal to the originally supplied series. -/
theorem roundtrip_latitude_get :
    (ncHereon.init
        (((ncHereon.init emptyDataset "w" "" "" "" "" "WGS84" [] "2026-01-01T00:00:00").add_parameter
            "latitude" "degree north" [c2_t, c2_lat] none none).2).close
        "r" "" "" "" "" "WGS84" [] "2026-01-02T00:00:00").get "latitude" []
      = Except.ok [c2_t, c2_lat] := rfl

/-- C5: opening a dataset in write mode with metadata containing a
boolean, an integer and a float stores the boolean and integer as
32-bit signed integers (1 and 4) and the float as a floating-point
attribute (1.5), with no error; string metadata passes through
unchanged. -/
theorem metadata_coercion (now : String) :
    (alookup "depth_rating" ((ncHereon.init emptyDataset "w" "t" "s" "o" "c" "WGS84"
        [("depth_rating", PyVal.pybool true), ("num_sensors", PyVal.pyint 4),
         ("offset", PyVal.pyfloat (3 / 2))] now).dataset.attrs)
      = some (AttrValue.int32 1)) ∧
    (alookup "num_sensors" ((ncHereon.init emptyDataset "w" "t" "s" "o" "c" "WGS84"
        [("depth_rating", PyVal.pybool true), ("num_sensors", PyVal.pyint 4),
         ("offset", PyVal.pyfloat (3 / 2))] now).dataset.attrs)
      = some (AttrValue.int32 4)) ∧
    (alookup "offset" ((ncHereon.init emptyDataset "w" "t" "s" "o" "c" "WGS84"
        [("depth_rating", PyVal.pybool true), ("num_sensors", PyVal.pyint 4),
         ("offset", PyVal.pyfloat (3 / 2))] now).dataset.attrs)
      = some (AttrValue.float (3 / 2))) ∧
    (∀ str : String, coerce_meta_value (PyVal.pystr str) = AttrValue.str str) :=
  ⟨rfl, rfl, rfl, fun _ => rfl⟩

/-- Counterexample for C6 as stated: after
`add_meta_variable("glider_flight/mass", "kg", 60.5)` the created
variable exists but carries no attribute named `units` (the source
assigns the singular `unit`), so the claimed `units = "kg"` is false. -/
theorem meta_variable_units_attr_missing :
    Option.map (fun var => alookup "units" var.attrs)
      (alookup "glider_flight/mass"
        ((c6_state.add_meta_variable "glider_flight/mass" "kg" (60.5 : Rat) "f4").2).dataset.vars)
      = some none := rfl

/-- C6 (amended): on any open dataset with no variable named
`glider_flight/mass`, `add_meta_variable("glider_flight/mass", "kg",
60.5)` succeeds and creates a zero-dimensional variable reachable under
the group-path name, carrying a `unit` (singular) attribute equal to
"kg" and scalar value 60.5, and registers or creates no dimension. -/
theorem meta_variable_group_scalar (s : ncHereon)
    (hfresh : alookup "glider_flight/mass" s.dataset.vars = none) :
    ((s.add_meta_variable "glider_flight/mass" "kg" (60.5 : Rat) "f4").1 = none) ∧
    (alookup "glider_flight/mass"
        ((s.add_meta_variable "glider_flight/mass" "kg" (60.5 : Rat) "f4").2).dataset.vars
      = some ⟨"f4", [], [("unit", AttrValue.str "kg")], [(60.5 : Rat)]⟩) ∧
    (((s.add_meta_variable "glider_flight/mass" "kg" (60.5 : Rat) "f4").2).dataset.dimensions
      = s.dataset.dimensions) ∧
    (((s.add_meta_variable "glider_flight/mass" "kg" (60.5 : Rat) "f4").2).dims = s.dims) := by
  have hn : normalizeName "glider_flight/mass" = "glider_flight/mass" := rfl
  have hcv : s.dataset.createVariable "glider_flight/mass" "f4" [] =
      (none, { s.dataset with vars := s.dataset.vars ++
        [("glider_flight/mass", ⟨"f4", [], [], []⟩)] }) := by
    unfold NCDataset.createVariable
    simp [hn, hfresh]
  unfold ncHereon.add_meta_variable
  rw [hcv]
  dsimp only
  refine ⟨rfl, ?_, rfl, rfl⟩
  unfold NCDataset.updateVar
  dsimp only
  rw [hn, alookup_updEntry_eq, alookup_append_none _ hfresh]
  simp [alookup, setAttr]

/-- Witness for C6 (amended) on a freshly opened write-mode dataset. -/
theorem meta_variable_group_scalar_witness :
    ((c6_state.add_meta_variable "glider_flight/mass" "kg" (60.5 : Rat) "f4").1 = none) ∧
    (alookup "glider_flight/mass"
        ((c6_state.add_meta_variable "glider_flight/mass" "kg" (60.5 : Rat) "f4").2).dataset.vars
      = some ⟨"f4", [], [("unit", AttrValue.str "kg")], [(60.5 : Rat)]⟩) ∧
    (((c6_state.add_meta_variable "glider_flight/mass" "kg" (60.5 : Rat) "f4").2).dataset.dimensions
      = c6_state.dataset.dimensions) ∧
    (((c6_state.add_meta_variable "glider_flight/mass" "kg" (60.5 : Rat) "f4").2).dims
      = c6_state.dims) :=
  meta_variable_group_scalar c6_state rfl

/-- C9: `get` always reads its leading array from the variable literally
named `time` in the root group: when the dataset has no root variable
named `time`, every `get` call fails with a key-lookup error, and when
`get` succeeds its first returned array is that variable's payload. -/
theorem get_reads_time_variable :
    (∀ (s : ncHereon) (param : String) (ps : List String),
        s.dataset.rootVar "time" = none →
        s.get param ps = Except.error "KeyError: time") ∧
    (∀ (s : ncHereon) (param : String) (ps : List String) (r : List (List Rat)),
        s.get param ps = Except.ok r →
        ∃ tv, s.dataset.rootVar "time" = some tv ∧ r.head? = some tv.data) := by
  constructor
  · intro s param ps h
    unfold ncHereon.get NCDataset.readVars
    rw [h]
    rfl
  · intro s param ps r h
    unfold ncHereon.get NCDataset.readVars at h
    cases htv : s.dataset.rootVar "time" with
    | none =>
      rw [htv] at h
      exact absurd h (by simp)
    | some tv =>
      rw [htv] at h
      dsimp only at h
      refine ⟨tv, rfl, ?_⟩
      cases hrv : s.dataset.readVars (param :: ps) with
      | error e =>
        rw [hrv] at h
        exact absurd h (by simp)
      | ok l =>
        rw [hrv] at h
        dsimp only at h
        cases h
        rfl

/-- Witness for C9: a dataset holding only a group-prefixed parameter on
a secondary time axis has no root `time` variable, so `get` fails. -/
theorem get_reads_time_variable_witness :
    c9_state.get "glider_flight/x" [] = Except.error "KeyError: time" :=
  get_reads_time_variable.1 c9_state "glider_flight/x" [] rfl

/-- C1: for any sequence of `add_parameter` calls against one open
dataset that resolve to the same unbounded time axis, the axis and its
coordinate variable are created exactly once, by the first such call,
with the coordinate values equal to that call's time series; every
later call naming the same axis leaves both the axis entry and the
coordinate variable (hence its values) unchanged. -/
theorem time_axis_created_once (s0 : ncHereon) (c : APCall) (cs : List APCall)
    (td : String) (t : List Rat) (rest : List (List Rat))
    (h1 : resolveTd c.time_dimension = td)
    (h2 : td ∉ s0.dims)
    (h3 : alookup td s0.dataset.dimensions = none)
    (h4 : alookup (normalizeName (ncHereon.get_time_name c.name)) s0.dataset.vars = none)
    (h5 : c.v = t :: rest)
    (h6 : rest.length = 1 ∨ rest.length = 2)
    (h7 : ∀ c' ∈ cs, resolveTd c'.time_dimension = td) :
    (alookup td
        ((s0.add_parameter c.name c.unit c.v c.standard_name c.time_dimension).2).dataset.dimensions
      = some none) ∧
    (alookup (normalizeName (ncHereon.get_time_name c.name))
        ((s0.add_parameter c.name c.unit c.v c.standard_name c.time_dimension).2).dataset.vars
      = some (timeCoordVar td t)) ∧
    (alookup td
        (runCalls ((s0.add_parameter c.name c.unit c.v c.standard_name c.time_dimension).2) cs).dataset.dimensions
      = some none) ∧
    (alookup (normalizeName (ncHereon.get_time_name c.name))
        (runCalls ((s0.add_parameter c.name c.unit c.v c.standard_name c.time_dimension).2) cs).dataset.vars
      = some (timeCoordVar td t)) := by
  rw [h5]
  obtain ⟨hd, hv⟩ := add_parameter_tcreates s0 c.name c.unit t rest
    c.standard_name c.time_dimension td h1 h2 h3 h4 h6
  exact ⟨hd, hv, runCalls_dim_mono cs _ hd, runCalls_var_mono cs _ hv⟩

/-- Witness for C1: a first call creates the default axis `T` with the
supplied time values, and a later call on the same axis leaves it and
its coordinate variable unchanged. -/
theorem time_axis_created_once_witness :
    (alookup "T" c1_first.dataset.dimensions = some none) ∧
    (alookup (normalizeName (ncHereon.get_time_name "latitude")) c1_first.dataset.vars
      = some (timeCoordVar "T" [(0 : Rat)])) ∧
    (alookup "T" (runCalls c1_first c1_cs).dataset.dimensions = some none) ∧
    (alookup (normalizeName (ncHereon.get_time_name "latitude")) (runCalls c1_first c1_cs).dataset.vars
      = some (timeCoordVar "T" [(0 : Rat)])) :=
  time_axis_created_once ⟨emptyDataset, []⟩
    ⟨"latitude", "degree north", [[(0 : Rat)], [(54 : Rat)]], none, none⟩
    c1_cs "T" [(0 : Rat)] [[(54 : Rat)]]
    rfl (by decide) rfl rfl rfl (Or.inl rfl)
    (by
      intro c' hc
      simp only [c1_cs, List.mem_singleton] at hc
      subst hc
      rfl)

theorem alookup_meta_fold_none (k : String) (meta : List (String × PyVal)) :
    ∀ acc : List (String × AttrValue),
    (∀ p ∈ meta, p.1 ≠ k) → alookup k acc = none →
    alookup k (meta.foldl (fun acc kv => setAttr kv.1 (coerce_meta_value kv.2) acc) acc)
      = none := by
  induction meta with
  | nil => intro acc hk hacc; exact hacc
  | cons p tl ih =>
    intro acc hk hacc
    rw [List.foldl_cons]
    refine ih _ (fun q hq => hk q (List.mem_cons_of_mem _ hq)) ?_
    rw [alookup_setAttr_ne _ _ _ _ (fun hc => hk p (List.mem_cons_self p tl) hc.symm)]
    exact hacc

/-- C10: the `crs` constructor argument is never written to the file:
two opens differing only in `crs` produce identical states, and in
write mode (where the caller metadata cannot contain a `crs` key, since
that keyword binds the named parameter) no global attribute named `crs`
exists. -/
theorem crs_never_written (file : NCDataset)
    (mode title source originator contact crs1 crs2 now : String)
    (meta : List (String × PyVal)) :
    (ncHereon.init file mode title source originator contact crs1 meta now
      = ncHereon.init file mode title source originator contact crs2 meta now) ∧
    (mode = "w" → (∀ p ∈ meta, p.1 ≠ "crs") →
      alookup "crs"
        (ncHereon.init file mode title source originator contact crs1 meta now).dataset.attrs
      = none) := by
  constructor
  · rfl
  · intro hm hmeta
    subst hm
    unfold ncHereon.init ncHereon.initialise_dataset
    rw [if_pos rfl, if_pos rfl]
    dsimp only
    refine alookup_meta_fold_none "crs" meta _ hmeta ?_
    rw [alookup_setAttr_ne _ _ _ _ (show "crs" ≠ "creation_date" by decide)]
    rw [alookup_setAttr_ne _ _ _ _ (show "crs" ≠ "contact" by decide)]
    rw [alookup_setAttr_ne _ _ _ _ (show "crs" ≠ "originator" by decide)]
    rw [alookup_setAttr_ne _ _ _ _ (show "crs" ≠ "source" by decide)]
    rw [alookup_setAttr_ne _ _ _ _ (show "crs" ≠ "title" by decide)]
    rw [alookup_setAttr_ne _ _ _ _ (show "crs" ≠ "institution" by decide)]
    rw [alookup_setAttr_ne _ _ _ _ (show "crs" ≠ "conventions" by decide)]
    rfl

/-- Witness for C10 at a concrete write-mode open. -/
theorem crs_never_written_witness :
    (ncHereon.init emptyDataset "w" "t" "s" "o" "c" "WGS84"
        [("num_sensors", PyVal.pyint 4)] "2026-01-01T00:00:00"
      = ncHereon.init emptyDataset "w" "t" "s" "o" "c" "EPSG:4326"
        [("num_sensors", PyVal.pyint 4)] "2026-01-01T00:00:00") ∧
    alookup "crs"
        (ncHereon.init emptyDataset "w" "t" "s" "o" "c" "WGS84"
          [("num_sensors", PyVal.pyint 4)] "2026-01-01T00:00:00").dataset.attrs
      = none :=
  ⟨(crs_never_written emptyDataset "w" "t" "s" "o" "c" "WGS84" "EPSG:4326"
      "2026-01-01T00:00:00" [("num_sensors", PyVal.pyint 4)]).1,
   (crs_never_written emptyDataset "w" "t" "s" "o" "c" "WGS84" "EPSG:4326"
      "2026-01-01T00:00:00" [("num_sensors", PyVal.pyint 4)]).2 rfl
     (by
       intro p hp
       rw [List.mem_singleton] at hp
       subst hp
       decide)⟩

/-- C3: the fixed depth axis obeys first-writer-wins.  (i) On first use,
`_check_for_z_dimension` creates `"Z"` with length taken from the first
depth series and materialises the `z` coordinate from it.  (ii) Once
`"Z"` is registered the check is a no-op for every later depth series.
(iii) A later 3-argument `add_parameter` call does not examine the new
depth series at all (its result is independent of it), so no length
re-validation happens.  (iv) Any later call leaves the recorded `"Z"`
entry and the `z` coordinate variable unchanged. -/
theorem z_axis_first_writer_wins :
    (∀ (s : ncHereon) (z : List Rat),
        "Z" ∉ s.dims →
        alookup "Z" s.dataset.dimensions = none →
        alookup "z" s.dataset.vars = none →
        (s.check_for_z_dimension z).1 = none ∧
        alookup "Z" ((s.check_for_z_dimension z).2).dataset.dimensions
          = some (some z.length) ∧
        alookup "z" ((s.check_for_z_dimension z).2).dataset.vars
          = some (depthCoordVar z)) ∧
    (∀ (s : ncHereon) (z : List Rat), "Z" ∈ s.dims →
        s.check_for_z_dimension z = (none, s)) ∧
    (∀ (s : ncHereon) (name unit : String) (t z1 z2 vals : List Rat)
        (sn tda : Option String), "Z" ∈ s.dims →
        s.add_parameter name unit [t, z1, vals] sn tda
          = s.add_parameter name unit [t, z2, vals] sn tda) ∧
    (∀ (s : ncHereon) (name unit : String) (t z vals : List Rat)
        (sn tda : Option String) (L : Option Nat) (zv : NCVariable),
        alookup "Z" s.dataset.dimensions = some L →
        alookup "z" s.dataset.vars = some zv →
        alookup "Z" ((s.add_parameter name unit [t, z, vals] sn tda).2).dataset.dimensions
          = some L ∧
        alookup "z" ((s.add_parameter name unit [t, z, vals] sn tda).2).dataset.vars
          = some zv) := by
  refine ⟨?_, ?_, ?_, ?_⟩
  · intro s z h2 h3 h4
    obtain ⟨a, b, cc, d⟩ := zcheck_creates s z h2 h3 h4
    exact ⟨a, cc, d⟩
  · intro s z h
    exact zcheck_noop z h
  · intro s name unit t z1 z2 vals sn tda hmem
    unfold ncHereon.add_parameter
    dsimp only
    cases htc : s.check_for_time_dimension t name (resolveTd tda) with
    | mk eo s1 =>
      cases eo with
      | some e => rfl
      | none =>
        dsimp only
        have hm1 : "Z" ∈ s1.dims := by
          have := tcheck_registry_mono s t name (resolveTd tda) hmem
          rw [htc] at this
          exact this
        rw [zcheck_noop z1 hm1, zcheck_noop z2 hm1]
  · intro s name unit t z vals sn tda L zv hd hv
    exact ⟨add_parameter_dim_mono s name unit [t, z, vals] sn tda hd,
           add_parameter_var_mono s name unit [t, z, vals] sn tda hv⟩

/-- Witness for C3 on concrete states: creation on a fresh dataset, then
no-op reuse, depth-series independence and preservation on a dataset
whose `"Z"` axis holds 2 levels. -/
theorem z_axis_first_writer_wins_witness :
    ((((⟨emptyDataset, []⟩ : ncHereon).check_for_z_dimension [(1 : Rat)]).1 = none) ∧
      alookup "Z" ((((⟨emptyDataset, []⟩ : ncHereon)).check_for_z_dimension [(1 : Rat)]).2).dataset.dimensions
        = some (some 1) ∧
      alookup "z" ((((⟨emptyDataset, []⟩ : ncHereon)).check_for_z_dimension [(1 : Rat)]).2).dataset.vars
        = some (depthCoordVar [(1 : Rat)])) ∧
    (c3_s.check_for_z_dimension [(9 : Rat)] = (none, c3_s)) ∧
    (c3_s.add_parameter "v" "m/s" [[(0 : Rat)], [(3 : Rat)], [(6 : Rat)]] none none
      = c3_s.add_parameter "v" "m/s" [[(0 : Rat)], [(3 : Rat), (4 : Rat), (5 : Rat)], [(6 : Rat)]] none none) ∧
    (alookup "Z" ((c3_s.add_parameter "v" "m/s" [[(0 : Rat)], [(3 : Rat)], [(6 : Rat)]] none none).2).dataset.dimensions
        = some (some 2) ∧
      alookup "z" ((c3_s.add_parameter "v" "m/s" [[(0 : Rat)], [(3 : Rat)], [(6 : Rat)]] none none).2).dataset.vars
        = some (depthCoordVar [(1 : Rat), (2 : Rat)])) :=
  ⟨z_axis_first_writer_wins.1 ⟨emptyDataset, []⟩ [(1 : Rat)] (by decide) rfl rfl,
   z_axis_first_writer_wins.2.1 c3_s [(9 : Rat)] (by decide),
   z_axis_first_writer_wins.2.2.1 c3_s "v" "m/s" [(0 : Rat)] [(3 : Rat)]
     [(3 : Rat), (4 : Rat), (5 : Rat)] [(6 : Rat)] none none (by decide),
   z_axis_first_writer_wins.2.2.2 c3_s "v" "m/s" [(0 : Rat)] [(3 : Rat)] [(6 : Rat)]
     none none (some 2) (depthCoordVar [(1 : Rat), (2 : Rat)]) rfl rfl⟩

theorem lastSlashSplit_no_slash (l : List Char) (h : '/' ∉ l) :
    lastSlashSplit l = none := by
  induction l with
  | nil => rfl
  | cons c cs ih =>
    have hc : ¬ (c = '/') := fun hc => h (hc ▸ List.mem_cons_self c cs)
    have hcs : '/' ∉ cs := fun hm => h (List.mem_cons_of_mem _ hm)
    unfold lastSlashSplit
    rw [ih hcs]
    simp [hc]

theorem lastSlashSplit_append (p q : List Char) (hq : '/' ∉ q) :
    lastSlashSplit (p ++ '/' :: q) = some (p ++ ['/'], q) := by
  induction p with
  | nil =>
    rw [List.nil_append]
    unfold lastSlashSplit
    rw [lastSlashSplit_no_slash q hq]
    rfl
  | cons c cs ih =>
    rw [List.cons_append]
    unfold lastSlashSplit
    rw [ih]
    rfl

theorem os_path_split_group (p q : String) (ps : List Char) (c0 : Char)
    (hq : '/' ∉ q.data) (hp : p.data = ps ++ [c0]) (hc0 : ¬ (c0 = '/')) :
    os_path_split (p ++ "/" ++ q) = (p, q) := by
  have hd : (p ++ "/" ++ q).data = p.data ++ '/' :: q.data := by
    rw [String.data_append, String.data_append, List.append_assoc]
    rfl
  unfold os_path_split
  rw [hd, lastSlashSplit_append p.data q.data hq]
  dsimp only
  have hne : p.data ++ ['/'] ≠ [] := by simp
  have hnall : ¬ ((p.data ++ ['/']).all (fun c => c = '/') = true) := by
    rw [hp]
    intro hall
    rw [List.all_eq_true] at hall
    have hmem : c0 ∈ (ps ++ [c0]) ++ ['/'] := by simp
    have := hall c0 hmem
    simp at this
    exact hc0 this
  rw [if_pos ⟨hne, hnall⟩]
  have hrev : ((p.data ++ ['/']).reverse.dropWhile (fun c => c = '/')).reverse = p.data := by
    rw [List.reverse_append]
    show (List.dropWhile (fun c => decide (c = '/')) ('/' :: p.data.reverse)).reverse = p.data
    rw [List.dropWhile_cons_of_pos (by decide)]
    rw [hp, List.reverse_append]
    show (List.dropWhile (fun c => decide (c = '/')) (c0 :: ps.reverse)).reverse = ps ++ [c0]
    rw [List.dropWhile_cons_of_neg (by simp [hc0])]
    rw [List.reverse_cons, List.reverse_reverse]
  rw [hrev]

/-- C8: for a variable name with a group path, the companion time
coordinate name is obtained by replacing the last path segment with the
fixed token `time`: `_get_time_name (p ++ "/" ++ q) = p ++ "/time"`,
and the coordinate variable created on first use of that variable's
time axis is stored under exactly that name. -/
theorem group_time_name_derivation (p q name : String) (ps : List Char) (c0 : Char)
    (s : ncHereon) (t : List Rat) (td : String)
    (hname : name = p ++ "/" ++ q)
    (hq : '/' ∉ q.data)
    (hp : p.data = ps ++ [c0])
    (hc0 : ¬ (c0 = '/'))
    (hhead : p.data.head? ≠ some '/')
    (h2 : td ∉ s.dims)
    (h3 : alookup td s.dataset.dimensions = none)
    (h4 : alookup (p ++ "/time") s.dataset.vars = none) :
    ncHereon.get_time_name name = p ++ "/time" ∧
    alookup (p ++ "/time") ((s.check_for_time_dimension t name td).2).dataset.vars
      = some (timeCoordVar td t) := by
  have hsplit := os_path_split_group p q ps c0 hq hp hc0
  have hgtn : ncHereon.get_time_name name = p ++ "/" ++ "time" := by
    unfold ncHereon.get_time_name
    rw [hname, hsplit]
  have hstr : p ++ "/" ++ "time" = p ++ "/time" := by
    apply String.ext
    rw [String.data_append, String.data_append, String.data_append, List.append_assoc]
    rfl
  have hkey : normalizeName (p ++ "/time") = p ++ "/time" := by
    unfold normalizeName
    apply String.ext
    show ((p ++ "/time").data.dropWhile (fun c => c = '/')) = (p ++ "/time").data
    rw [String.data_append, hp]
    cases ps with
    | nil =>
      rw [List.nil_append, List.singleton_append]
      rw [List.dropWhile_cons_of_neg (by simp [hc0])]
    | cons d ds =>
      have hdne : ¬ (d = '/') := by
        intro hc
        apply hhead
        rw [hp]
        show some d = some '/'
        rw [hc]
      rw [List.cons_append, List.cons_append]
      rw [List.dropWhile_cons_of_neg (by simp [hdne])]
  have hfull : normalizeName (ncHereon.get_time_name name) = p ++ "/time" := by
    rw [hgtn, hstr]
    exact hkey
  have h4' : alookup (normalizeName (ncHereon.get_time_name name)) s.dataset.vars = none := by
    rw [hfull]
    exact h4
  obtain ⟨hx1, hx2, hx3, hvar⟩ := tcheck_creates s t name td h2 h3 h4'
  constructor
  · rw [hgtn]
    exact hstr
  · rw [← hfull]
    exact hvar

/-- Witness for C8 at `"glider_flight/pitch_gain"` on a secondary axis. -/
theorem group_time_name_derivation_witness :
    ncHereon.get_time_name "glider_flight/pitch_gain" = "glider_flight/time" ∧
    alookup "glider_flight/time"
        (((⟨emptyDataset, []⟩ : ncHereon).check_for_time_dimension [(0 : Rat)]
          "glider_flight/pitch_gain" "Tgf").2).dataset.vars
      = some (timeCoordVar "Tgf" [(0 : Rat)]) :=
  group_time_name_derivation "glider_flight" "pitch_gain" "glider_flight/pitch_gain"
    ("glider_fligh".data) 't' ⟨emptyDataset, []⟩ [(0 : Rat)] "Tgf"
    rfl (by decide) rfl (by decide) (by decide) (by decide) rfl rfl
